import Mathlib

/-!
Verification of the credit_risk repository's scoring-and-classification core.

The development shallowly embeds the two scoring engines:

* `climate_risk.py` — `ClimateRiskScreeningTool`: ESG exclusion screening,
  weighted climate-risk scoring, qualitative risk/opportunity rules, a
  rule-based recommendation, and report assembly.
* `risk_score_app.py` — the threshold-based loan decision (Step 2 of the app).

Machine floats of the source are modelled by exact rationals (`ℚ`); the one
place where IEEE special values are observable (division by a zero revenue,
which in the source produces a float infinity rather than an exception) is
modelled explicitly by the `PyFloat` type below.  Text is modelled by `String`,
with Python's ASCII `str.lower` as a character map and the Python `in`
substring operator as list-infix containment on the underlying characters.
-/

namespace CreditRisk

/-- Python `str.lower`, restricted to the ASCII range actually exercised by the
taxonomy keywords: each character is lowered independently. -/
def pyLower (s : String) : String := ⟨s.data.map Char.toLower⟩

/-- Python's `sub in s` substring test: `sub` occurs contiguously in `s`. -/
def pyContains (s sub : String) : Bool := decide (sub.data <:+: s.data)

/-- Embedding of `self.esg_exclusion_list` from `ClimateRiskScreeningTool.__init__`
(`src/climate_risk.py` lines 15-20), as an association list preserving the
Python dict's definition (insertion) order. -/
def esg_exclusion_list : List (String × List String) :=
  [ ("fossil_fuels", ["coal_mining", "oil_gas_extraction", "fossil_power_generation"]),
    ("controversial_weapons", ["cluster_munitions", "landmines", "nuclear_weapons"]),
    ("ethical_concerns", ["tobacco", "gambling", "adult_entertainment"]),
    ("environmental_violations", ["deforestation", "high_emission_operations"]) ]

/-- The sub-factor weights of the `physical_risk` dimension
(`src/climate_risk.py` lines 24-29), in definition order. -/
def physical_risk_factors : List (String × ℚ) :=
  [ ("flood_risk", 0.25), ("heat_stress", 0.20),
    ("sea_level_rise", 0.15), ("wildfire_risk", 0.15) ]

/-- The sub-factor weights of the `transition_risk` dimension
(`src/climate_risk.py` lines 30-34), in definition order. -/
def transition_risk_factors : List (String × ℚ) :=
  [ ("carbon_price_exposure", 0.25), ("regulatory_compliance", 0.20),
    ("technology_disruption", 0.15) ]

/-- Embedding of `self.climate_risk_factors` (`src/climate_risk.py` lines 22-35):
risk dimension → (sub-factor → weight), in the dict's definition order. -/
def climate_risk_factors : List (String × List (String × ℚ)) :=
  [ ("physical_risk", physical_risk_factors),
    ("transition_risk", transition_risk_factors) ]

/-- Embedding of `screen_esg_exclusions` (`src/climate_risk.py` lines 51-60):
lower-case the industry text, collect (in taxonomy definition order) every
category one of whose keyword strings occurs in the lowered text, and report
compliance as emptiness of that list. -/
def screen_esg_exclusions (industry : String) : Bool × List String :=
  let company_industry := pyLower industry
  let violations :=
    (esg_exclusion_list.filter
      (fun p => p.2.any (fun kw => pyContains company_industry kw))).map Prod.fst
  (violations.isEmpty, violations)

/-- A row of the one-row pandas DataFrame built by `load_company_data`, viewed
through its numeric columns only: an association list column-name → value.
Modelling the columns as an association list keeps the source's possibility of
a missing column (pandas `KeyError`), which `calculate_climate_risk_score`
turns into its silent `0.0` fallback. -/
def Row := List (String × ℚ)

/-- Weighted sum `Σ company_data[f"{factor}_score"] * weight` over one
dimension's (factor, weight) list; `none` models the pandas `KeyError`
escaping the generator when a column is absent. -/
def dimensionScore (row : Row) : List (String × ℚ) → Option ℚ
  | [] => some 0
  | (factor, weight) :: rest => do
    let v ← List.lookup (factor ++ "_score") row
    let s ← dimensionScore row rest
    pure (v * weight + s)

/-- The body of the `try:` block of `calculate_climate_risk_score`
(`src/climate_risk.py` lines 64-73): both dimension scores blended 0.6/0.4;
`none` models the exception reaching the `except` handler. -/
def calculate_climate_risk_core (row : Row) : Option ℚ := do
  let physical_score ← dimensionScore row physical_risk_factors
  let transition_score ← dimensionScore row transition_risk_factors
  pure (0.6 * physical_score + 0.4 * transition_score)

/-- Embedding of `calculate_climate_risk_score` (`src/climate_risk.py` lines
62-76) including its `except` clause, which swallows any error into `0.0`. -/
def calculate_climate_risk_score (row : Row) : ℚ :=
  (calculate_climate_risk_core row).getD 0

/-- A numeric value as produced by the source's float division: either a real
(modelled exact) value, or one of the IEEE special values that numpy float64
division by zero produces instead of raising. -/
inductive PyFloat where
  | val (q : ℚ)
  | inf
  | ninf
  | nan
deriving DecidableEq

/-- Float division as performed on the DataFrame scalars: a nonzero divisor
divides exactly; a zero divisor yields +inf, -inf or nan by the sign of the
numerator (numpy float64 semantics, no exception). -/
def fdiv (a b : ℚ) : PyFloat :=
  if b ≠ 0 then .val (a / b)
  else if 0 < a then .inf
  else if a < 0 then .ninf
  else .nan

/-- IEEE `>` against a finite constant: infinity exceeds everything, nan and
-inf exceed nothing. -/
def fgt : PyFloat → ℚ → Bool
  | .val q, c => decide (c < q)
  | .inf, _ => true
  | .ninf, _ => false
  | .nan, _ => false

/-- IEEE `<` against a finite constant: -inf is below everything, nan and
+inf are below nothing. -/
def flt : PyFloat → ℚ → Bool
  | .val q, c => decide (q < c)
  | .inf, _ => false
  | .ninf, _ => true
  | .nan, _ => false

/-- The validated per-assessment input record: the fields the Streamlit form
collects (`src/climate_risk.py` lines 172-187), which `load_company_data`
checks for the required columns. -/
structure CompanyData where
  company_name : String
  industry : String
  location : String
  revenue : ℚ
  carbon_footprint : ℚ
  physical_risk_score : ℚ
  transition_risk_score : ℚ
  flood_risk_score : ℚ
  heat_stress_score : ℚ
  sea_level_rise_score : ℚ
  wildfire_risk_score : ℚ
  carbon_price_exposure_score : ℚ
  regulatory_compliance_score : ℚ
  technology_disruption_score : ℚ

/-- The numeric columns of the DataFrame row built from a full `CompanyData`
record, in the form `calculate_climate_risk_score` reads them. -/
def toRow (c : CompanyData) : Row :=
  [ ("revenue", c.revenue),
    ("carbon_footprint", c.carbon_footprint),
    ("physical_risk_score", c.physical_risk_score),
    ("transition_risk_score", c.transition_risk_score),
    ("flood_risk_score", c.flood_risk_score),
    ("heat_stress_score", c.heat_stress_score),
    ("sea_level_rise_score", c.sea_level_rise_score),
    ("wildfire_risk_score", c.wildfire_risk_score),
    ("carbon_price_exposure_score", c.carbon_price_exposure_score),
    ("regulatory_compliance_score", c.regulatory_compliance_score),
    ("technology_disruption_score", c.technology_disruption_score) ]

/-- Embedding of `identify_esg_risks` (`src/climate_risk.py` lines 78-91):
three independent threshold rules appended in fixed order.  The carbon
intensity ratio uses `fdiv`, so a zero revenue flows through as infinity
exactly as in the source. -/
def identify_esg_risks (c : CompanyData) : List String :=
  (if fgt (fdiv c.carbon_footprint c.revenue) 100 then ["High carbon intensity"] else [])
  ++ (if 7 < c.physical_risk_score then ["High physical climate risk"] else [])
  ++ (if 6 < c.transition_risk_score then ["High transition risk"] else [])

/-- Embedding of `assess_opportunities` (`src/climate_risk.py` lines 93-104):
three independent rules appended in fixed order. -/
def assess_opportunities (c : CompanyData) : List String :=
  (if pyContains (pyLower c.industry) "renewable" then ["Renewable energy market growth"] else [])
  ++ (if flt (fdiv c.carbon_footprint c.revenue) 50 then ["Low-carbon competitive advantage"] else [])
  ++ (if pyContains (pyLower c.industry) "green" then ["Green technology innovation"] else [])

/-- Embedding of `_generate_recommendation` (`src/climate_risk.py` lines
133-142): ordered rules, first match wins, strict thresholds. -/
def generate_recommendation (esg_compliant : Bool) (climate_risk_score : ℚ) : String :=
  if !esg_compliant then "Do not proceed - ESG exclusion list violations detected"
  else if 8 < climate_risk_score then "High risk - requires detailed due diligence"
  else if 5 < climate_risk_score then "Moderate risk - proceed with caution"
  else "Low risk - suitable for investment consideration"

/-- Python's `round(x, 2)` on our exact rationals: scale by 100, round half to
even, scale back. -/
def round2 (q : ℚ) : ℚ :=
  ((if Int.fract (q * 100) = 1/2
    then (if ⌊q * 100⌋ % 2 = 0 then ⌊q * 100⌋ else ⌊q * 100⌋ + 1)
    else round (q * 100) : ℤ) : ℚ) / 100

/-- The report record assembled by `generate_report`
(`src/climate_risk.py` lines 116-124). -/
structure Report where
  company_name : String
  esg_compliant : Bool
  esg_violations : List String
  climate_risk_score : ℚ
  esg_risks : List String
  climate_opportunities : List String
  recommendation : String
deriving DecidableEq

/-- Embedding of `generate_report` (`src/climate_risk.py` lines 106-131) on a
full, validated `CompanyData` record (on which `load_company_data` succeeds):
screening, scoring, risk and opportunity rules, 2-decimal rounding of the
composite score, and the recommendation computed from the unrounded score. -/
def generate_report (c : CompanyData) : Report :=
  let screened := screen_esg_exclusions c.industry
  let climate_risk_score := calculate_climate_risk_score (toRow c)
  { company_name := c.company_name
    esg_compliant := screened.1
    esg_violations := screened.2
    climate_risk_score := round2 climate_risk_score
    esg_risks := identify_esg_risks c
    climate_opportunities := assess_opportunities c
    recommendation := generate_recommendation screened.1 climate_risk_score }

/-- Embedding of the Step 2 decision logic of `src/risk_score_app.py`
(lines 41-50): default Rejected/"High risk", overridden by the `if`/`elif`
ladder on the risk score and loan amount. -/
def loanDecision (risk_score loan_amount : ℚ) : String × String :=
  if 700 ≤ risk_score then ("Approved", "Low risk")
  else if 500 ≤ risk_score ∧ risk_score < 700 ∧ loan_amount ≤ 50000 then
    ("Approved", "Medium risk (limited amount)")
  else ("Rejected", "High risk")

/-- A concrete DataFrame row with every column except `flood_risk_score`: the
weight table names a sub-factor the row lacks, triggering the scorer's error
path. -/
def rowMissingFloodRisk : Row :=
  [ ("revenue", 100000000), ("carbon_footprint", 2000000),
    ("physical_risk_score", 4.5), ("transition_risk_score", 3.2),
    ("heat_stress_score", 4.0), ("sea_level_rise_score", 3.5),
    ("wildfire_risk_score", 5.0), ("carbon_price_exposure_score", 3.0),
    ("regulatory_compliance_score", 3.5), ("technology_disruption_score", 3.0) ]

/-- A concrete company whose revenue field is 0, exercising the division by
zero in the risk and opportunity ratio rules. -/
def zeroRevenueCompany : CompanyData :=
  { company_name := "ZeroRev Ltd", industry := "manufacturing",
    location := "Nairobi", revenue := 0, carbon_footprint := 2000000,
    physical_risk_score := 4.5, transition_risk_score := 3.2,
    flood_risk_score := 5.0, heat_stress_score := 4.0,
    sea_level_rise_score := 3.5, wildfire_risk_score := 5.0,
    carbon_price_exposure_score := 3.0, regulatory_compliance_score := 3.5,
    technology_disruption_score := 3.0 }

/-- The Streamlit form's default company: a renewable-energy firm with low
carbon intensity and mid-range risk scores. -/
def greenTechCompany : CompanyData :=
  { company_name := "GreenTech Solutions", industry := "Renewable Energy",
    location := "California", revenue := 100000000, carbon_footprint := 2000000,
    physical_risk_score := 4.5, transition_risk_score := 3.2,
    flood_risk_score := 5.0, heat_stress_score := 4.0,
    sea_level_rise_score := 3.5, wildfire_risk_score := 5.0,
    carbon_price_exposure_score := 3.0, regulatory_compliance_score := 3.5,
    technology_disruption_score := 3.0 }

/-- A company sitting at the top of every score range: all nine risk scores at
the maximum slider value 10. -/
def maxScoreCompany : CompanyData :=
  { company_name := "MaxRisk Ltd", industry := "manufacturing",
    location := "Lagos", revenue := 100000000, carbon_footprint := 2000000,
    physical_risk_score := 10, transition_risk_score := 10,
    flood_risk_score := 10, heat_stress_score := 10,
    sea_level_rise_score := 10, wildfire_risk_score := 10,
    carbon_price_exposure_score := 10, regulatory_compliance_score := 10,
    technology_disruption_score := 10 }

/-! ### Helper lemmas -/

/-- Converting a small scalar value back out of `Char.ofNat` is the identity;
only the ASCII range is needed here. -/
theorem char_toNat_ofNat_small {n : ℕ} (h : n < 55296) : (Char.ofNat n).toNat = n := by
  rw [Char.ofNat, dif_pos (Or.inl h)]
  rfl

/-- ASCII lower-casing is idempotent: a lowered character is never in the
uppercase range, so lowering it again changes nothing. -/
theorem toLower_idem (c : Char) : Char.toLower (Char.toLower c) = Char.toLower c := by
  by_cases h : c.toNat ≥ 65 ∧ c.toNat ≤ 90
  · have h32 : (c.toNat + 32) < 55296 := by omega
    simp only [Char.toLower, if_pos h, char_toNat_ofNat_small h32]
    rw [if_neg (by omega)]
  · simp only [Char.toLower, if_neg h]

/-- Lower-casing a whole string is idempotent. -/
theorem pyLower_idem (s : String) : pyLower (pyLower s) = pyLower s := by
  simp only [pyLower, List.map_map]
  exact congrArg String.mk (congrFun (congrArg List.map (funext fun c => toLower_idem c)) s.data)

/-- In a pair list whose first components are distinct, a member's first
component survives `filter`-then-`map fst` exactly when the member itself
passes the filter. -/
theorem mem_map_fst_filter {α β : Type} (l : List (β × α)) (q : β × α → Bool)
    (p : β × α) (hnd : (l.map Prod.fst).Nodup) (hp : p ∈ l) :
    p.1 ∈ (l.filter q).map Prod.fst ↔ q p = true := by
  induction l with
  | nil => cases hp
  | cons a t ih =>
    rw [List.map_cons, List.nodup_cons] at hnd
    rcases List.mem_cons.1 hp with hpa | hpt
    · subst hpa
      constructor
      · intro hmem
        by_contra hq
        have hqf : q p = false := by
          cases hqv : q p
          · rfl
          · exact absurd hqv hq
        rw [List.filter_cons, hqf, if_neg (by decide)] at hmem
        exact hnd.1 (List.map_subset Prod.fst (List.filter_subset' t) hmem)
      · intro hq
        rw [List.filter_cons, hq, if_pos rfl, List.map_cons]
        exact List.mem_cons_self _ _
    · have hne : p.1 ∈ t.map Prod.fst := List.mem_map_of_mem Prod.fst hpt
      have hpa1 : p.1 ≠ a.1 := fun he => hnd.1 (he ▸ hne)
      rw [List.filter_cons]
      cases hq : q a
      · rw [if_neg (by decide)]
        exact ih hnd.2 hpt
      · rw [if_pos rfl, List.map_cons, List.mem_cons]
        constructor
        · intro hc
          rcases hc with he | hm
          · exact absurd he hpa1
          · exact (ih hnd.2 hpt).1 hm
        · intro hqp
          exact Or.inr ((ih hnd.2 hpt).2 hqp)

/-- The composite climate score on a full row, written out as the blended
weighted sums of the seven sub-factor scores. -/
theorem calc_score_eq (c : CompanyData) :
    calculate_climate_risk_score (toRow c) =
      0.6 * (c.flood_risk_score * 0.25 + c.heat_stress_score * 0.20
             + c.sea_level_rise_score * 0.15 + c.wildfire_risk_score * 0.15)
      + 0.4 * (c.carbon_price_exposure_score * 0.25
               + c.regulatory_compliance_score * 0.20
               + c.technology_disruption_score * 0.15) := by
  simp [calculate_climate_risk_score, calculate_climate_risk_core, dimensionScore,
    physical_risk_factors, transition_risk_factors, toRow, List.lookup]
  ring

/-! ### Claims -/

/-- **C1.** The exclusion-aware classifier evaluates its rules top to bottom
with first match winning and strict greater-than boundaries: non-compliance
dominates; otherwise score > 8 gives the High string, score > 5 the Moderate
string, and anything else the Low string; in particular a compliant score of
exactly 8 is Moderate and exactly 5 is Low. -/
theorem claim_C1_classifier_rules :
    (∀ s : ℚ, generate_recommendation false s =
      "Do not proceed - ESG exclusion list violations detected") ∧
    (∀ s : ℚ, 8 < s → generate_recommendation true s =
      "High risk - requires detailed due diligence") ∧
    (∀ s : ℚ, s ≤ 8 → 5 < s → generate_recommendation true s =
      "Moderate risk - proceed with caution") ∧
    (∀ s : ℚ, s ≤ 5 → generate_recommendation true s =
      "Low risk - suitable for investment consideration") ∧
    generate_recommendation true 8 = "Moderate risk - proceed with caution" ∧
    generate_recommendation true 5 = "Low risk - suitable for investment consideration" := by
  refine ⟨fun s => rfl, fun s h => ?_, fun s h1 h2 => ?_, fun s h => ?_, ?_, ?_⟩
  · simp [generate_recommendation, h]
  · simp [generate_recommendation, not_lt.2 h1, h2]
  · have h8 : ¬ (8:ℚ) < s := by linarith
    have h5 : ¬ (5:ℚ) < s := not_lt.2 h
    simp [generate_recommendation, h8, h5]
  · norm_num [generate_recommendation]
  · norm_num [generate_recommendation]

/-- Witness for C1: the hypothetical branches instantiated at scores 9, 6
and 3. -/
theorem claim_C1_classifier_rules_witness :
    generate_recommendation true 9 = "High risk - requires detailed due diligence" ∧
    generate_recommendation true 6 = "Moderate risk - proceed with caution" ∧
    generate_recommendation true 3 = "Low risk - suitable for investment consideration" :=
  ⟨claim_C1_classifier_rules.2.1 9 (by norm_num),
   claim_C1_classifier_rules.2.2.1 6 (by norm_num) (by norm_num),
   claim_C1_classifier_rules.2.2.2.1 3 (by norm_num)⟩

/-- **C2.** The loan decision: risk score ≥ 700 is Approved/"Low risk"
regardless of amount; 500 ≤ score < 700 with amount ≤ 50000 is Approved with
the Medium reason; every other case is Rejected/"High risk"; in particular
(699, 50000) is approved and (699, 50001) rejected. -/
theorem claim_C2_loan_decision :
    (∀ rs la : ℚ, 700 ≤ rs → loanDecision rs la = ("Approved", "Low risk")) ∧
    (∀ rs la : ℚ, 500 ≤ rs → rs < 700 → la ≤ 50000 →
      loanDecision rs la = ("Approved", "Medium risk (limited amount)")) ∧
    (∀ rs la : ℚ, rs < 500 → loanDecision rs la = ("Rejected", "High risk")) ∧
    (∀ rs la : ℚ, rs < 700 → 50000 < la → loanDecision rs la = ("Rejected", "High risk")) ∧
    loanDecision 699 50000 = ("Approved", "Medium risk (limited amount)") ∧
    loanDecision 699 50001 = ("Rejected", "High risk") := by
  refine ⟨fun rs la h => ?_, fun rs la h1 h2 h3 => ?_, fun rs la h => ?_,
    fun rs la h1 h2 => ?_, ?_, ?_⟩
  · simp [loanDecision, h]
  · have h7 : ¬ (700:ℚ) ≤ rs := by linarith
    simp [loanDecision, h7, h1, h2, h3]
  · have h7 : ¬ (700 : ℚ) ≤ rs := by linarith
    have h5 : ¬ (500 : ℚ) ≤ rs := by linarith
    simp [loanDecision, h7, h5]
  · have h7 : ¬ (700 : ℚ) ≤ rs := not_le.2 h1
    have hla : ¬ la ≤ 50000 := not_le.2 h2
    simp [loanDecision, h7, hla]
  · norm_num [loanDecision]
  · norm_num [loanDecision]

/-- Witness for C2: the branch hypotheses discharged at concrete scores and
amounts (750 with a large loan, 550 within the cap, 499, and 699 above the
cap). -/
theorem claim_C2_loan_decision_witness :
    loanDecision 750 1000000 = ("Approved", "Low risk") ∧
    loanDecision 550 40000 = ("Approved", "Medium risk (limited amount)") ∧
    loanDecision 499 1000 = ("Rejected", "High risk") ∧
    loanDecision 699 60000 = ("Rejected", "High risk") :=
  ⟨claim_C2_loan_decision.1 750 1000000 (by norm_num),
   claim_C2_loan_decision.2.1 550 40000 (by norm_num) (by norm_num) (by norm_num),
   claim_C2_loan_decision.2.2.1 499 1000 (by norm_num),
   claim_C2_loan_decision.2.2.2.1 699 60000 (by norm_num) (by norm_num)⟩

/-- **C3.** The composite score is the 0.6/0.4 blend of the two dimension
scores, each the sum of sub-factor value times weight over that dimension's
declared sub-factors, with no rounding at the scoring stage; the report
applies 2-decimal rounding exactly once, at assembly. -/
theorem claim_C3_composite_blend (c : CompanyData) :
    calculate_climate_risk_score (toRow c) =
      0.6 * (c.flood_risk_score * 0.25 + c.heat_stress_score * 0.20
             + c.sea_level_rise_score * 0.15 + c.wildfire_risk_score * 0.15)
      + 0.4 * (c.carbon_price_exposure_score * 0.25
               + c.regulatory_compliance_score * 0.20
               + c.technology_disruption_score * 0.15)
    ∧ (generate_report c).climate_risk_score
        = round2 (calculate_climate_risk_score (toRow c)) :=
  ⟨calc_score_eq c, rfl⟩

/-- **C4** (code behaviour at the failing input): with `flood_risk_score`
absent, the scoring body fails (`none`, the pandas `KeyError`), and
`calculate_climate_risk_score` swallows that failure into the degraded
default `0.0` instead of surfacing a typed MissingFactor error. -/
theorem claim_C4_missing_factor_swallowed_to_zero :
    calculate_climate_risk_core rowMissingFloodRisk = none ∧
    calculate_climate_risk_score rowMissingFloodRisk = 0 := by
  constructor <;> rfl

/-- **C9** (counterexample): the physical_risk dimension's weights sum to
0.75, not 1.0, so the claim that every dimension's weights sum exactly to 1.0
is false for the table as defined. -/
theorem claim_C9_counterexample :
    (physical_risk_factors.map Prod.snd).sum = 0.75 ∧
    ¬ (physical_risk_factors.map Prod.snd).sum = 1 := by
  norm_num [physical_risk_factors]

/-- **C9** (amended): in the static weight table every sub-factor weight is
non-negative, and the dimension sums are 0.75 for physical_risk and 0.60 for
transition_risk (not 1.0). -/
theorem claim_C9_weight_sums :
    (∀ p ∈ climate_risk_factors, ∀ fw ∈ p.2, 0 ≤ fw.2) ∧
    (physical_risk_factors.map Prod.snd).sum = 0.75 ∧
    (transition_risk_factors.map Prod.snd).sum = 0.60 := by
  refine ⟨?_, by norm_num [physical_risk_factors], by norm_num [transition_risk_factors]⟩
  intro p hp fw hfw
  fin_cases hp <;> fin_cases hfw <;> norm_num

/-- **C5.** For every category text, compliance holds exactly when the
violations list is empty; the violations list holds each taxonomy label at
most once (it is duplicate-free) and is a sublist of the taxonomy's labels in
their fixed definition order; and the empty text screens to `(true, [])`. -/
theorem claim_C5_screen_structure (s : String) :
    ((screen_esg_exclusions s).1 = true ↔ (screen_esg_exclusions s).2 = []) ∧
    (screen_esg_exclusions s).2.Nodup ∧
    (screen_esg_exclusions s).2.Sublist (esg_exclusion_list.map Prod.fst) ∧
    screen_esg_exclusions "" = (true, []) := by
  have hsub : (screen_esg_exclusions s).2.Sublist (esg_exclusion_list.map Prod.fst) := by
    simp only [screen_esg_exclusions]
    exact List.Sublist.map Prod.fst (List.filter_sublist _)
  have hnd : (esg_exclusion_list.map Prod.fst).Nodup := by decide
  refine ⟨?_, hsub.nodup hnd, hsub, by decide⟩
  simp only [screen_esg_exclusions]
  exact List.isEmpty_iff

/-- **C6.** Screening is case-insensitive literal substring matching: a text
and its lower-cased form screen identically; a taxonomy category's label
appears among the violations exactly when one of its keywords occurs as a
substring of the lower-cased text; and the upper- and lower-case spellings of
`oil_gas_extraction` both trigger exactly the `fossil_fuels` violation. -/
theorem claim_C6_case_insensitive (s : String) :
    screen_esg_exclusions s = screen_esg_exclusions (pyLower s) ∧
    (∀ p ∈ esg_exclusion_list,
      (p.1 ∈ (screen_esg_exclusions s).2 ↔
        ∃ kw ∈ p.2, kw.data <:+: (pyLower s).data)) ∧
    (screen_esg_exclusions "OIL_GAS_EXTRACTION").2 = ["fossil_fuels"] ∧
    (screen_esg_exclusions "oil_gas_extraction").2 = ["fossil_fuels"] := by
  refine ⟨?_, ?_, by decide, by decide⟩
  · simp only [screen_esg_exclusions, pyLower_idem]
  · intro p hp
    have hnd : (esg_exclusion_list.map Prod.fst).Nodup := by decide
    have h := mem_map_fst_filter esg_exclusion_list
      (fun p => p.2.any (fun kw => pyContains (pyLower s) kw)) p hnd hp
    simp only [screen_esg_exclusions]
    rw [h]
    simp [pyContains]

/-- Witness for C6: the characterization instantiated at the `fossil_fuels`
taxonomy entry and the upper-case category text. -/
theorem claim_C6_case_insensitive_witness :
    (("fossil_fuels", ["coal_mining", "oil_gas_extraction", "fossil_power_generation"])
      ∈ esg_exclusion_list) ∧
    ("fossil_fuels" ∈ (screen_esg_exclusions "OIL_GAS_EXTRACTION").2 ↔
      ∃ kw ∈ ["coal_mining", "oil_gas_extraction", "fossil_power_generation"],
        kw.data <:+: (pyLower "OIL_GAS_EXTRACTION").data) :=
  ⟨by decide,
   (claim_C6_case_insensitive "OIL_GAS_EXTRACTION").2.1
     ("fossil_fuels", ["coal_mining", "oil_gas_extraction", "fossil_power_generation"])
     (by decide)⟩

/-- **C7** (code behaviour at the failing input): with revenue 0 the ratio
`carbon_footprint / revenue` evaluates to the float infinity, which is not an
error and not a documented sentinel: it silently satisfies the `> 100` carbon
intensity rule, fails the `< 50` opportunity rule, and flows into the
assembled report's risk list. -/
theorem claim_C7_zero_revenue_infinity :
    fdiv zeroRevenueCompany.carbon_footprint zeroRevenueCompany.revenue = PyFloat.inf ∧
    identify_esg_risks zeroRevenueCompany = ["High carbon intensity"] ∧
    assess_opportunities zeroRevenueCompany = [] ∧
    (generate_report zeroRevenueCompany).esg_risks = ["High carbon intensity"] := by
  have hdiv : fdiv zeroRevenueCompany.carbon_footprint zeroRevenueCompany.revenue
      = PyFloat.inf := by
    norm_num [fdiv, zeroRevenueCompany]
  have hrisks : identify_esg_risks zeroRevenueCompany = ["High carbon intensity"] := by
    norm_num [identify_esg_risks, zeroRevenueCompany, fdiv, fgt]
  have hr : pyContains (pyLower zeroRevenueCompany.industry) "renewable" = false := by decide
  have hg : pyContains (pyLower zeroRevenueCompany.industry) "green" = false := by decide
  have hopp : assess_opportunities zeroRevenueCompany = [] := by
    rw [assess_opportunities, hr, hg]
    norm_num [zeroRevenueCompany, fdiv, flt]
  exact ⟨hdiv, hrisks, hopp, hrisks⟩

/-- **C8.** With nonzero revenue, the risk rules evaluate independently and
append their labels in the fixed source order, as do the opportunity rules,
with the ratio rules comparing the exact quotient and the text rules testing
case-insensitive substring containment. -/
theorem claim_C8_rule_lists (c : CompanyData) (h : c.revenue ≠ 0) :
    identify_esg_risks c =
      (if 100 < c.carbon_footprint / c.revenue then ["High carbon intensity"] else [])
      ++ (if 7 < c.physical_risk_score then ["High physical climate risk"] else [])
      ++ (if 6 < c.transition_risk_score then ["High transition risk"] else [])
    ∧ assess_opportunities c =
      (if pyContains (pyLower c.industry) "renewable" = true
        then ["Renewable energy market growth"] else [])
      ++ (if c.carbon_footprint / c.revenue < 50
        then ["Low-carbon competitive advantage"] else [])
      ++ (if pyContains (pyLower c.industry) "green" = true
        then ["Green technology innovation"] else []) := by
  constructor
  · simp only [identify_esg_risks, fdiv, if_pos h, fgt, decide_eq_true_eq]
  · simp only [assess_opportunities, fdiv, if_pos h, flt, decide_eq_true_eq]

/-- Witness for C8: the rule lists evaluated on the form's default
renewable-energy company, whose revenue is nonzero. -/
theorem claim_C8_rule_lists_witness :
    greenTechCompany.revenue ≠ 0 ∧
    identify_esg_risks greenTechCompany = [] ∧
    assess_opportunities greenTechCompany =
      ["Renewable energy market growth", "Low-carbon competitive advantage"] := by
  have h : greenTechCompany.revenue ≠ 0 := by norm_num [greenTechCompany]
  have hrules := claim_C8_rule_lists greenTechCompany h
  have hr : pyContains (pyLower greenTechCompany.industry) "renewable" = true := by decide
  have hg : pyContains (pyLower greenTechCompany.industry) "green" = false := by decide
  refine ⟨h, ?_, ?_⟩
  · rw [hrules.1]
    norm_num [greenTechCompany]
  · rw [hrules.2, hr, hg]
    norm_num [greenTechCompany]

/-- **C10.** With the weight table as defined, any input whose nine risk
scores lie in [0, 10] yields a composite score of at most 6.9, so the "High
risk" recommendation (requiring a score above 8) is unreachable in the
assembled report. -/
theorem claim_C10_high_risk_unreachable (c : CompanyData)
    (h1 : 0 ≤ c.physical_risk_score) (h2 : c.physical_risk_score ≤ 10)
    (h3 : 0 ≤ c.transition_risk_score) (h4 : c.transition_risk_score ≤ 10)
    (h5 : 0 ≤ c.flood_risk_score) (h6 : c.flood_risk_score ≤ 10)
    (h7 : 0 ≤ c.heat_stress_score) (h8 : c.heat_stress_score ≤ 10)
    (h9 : 0 ≤ c.sea_level_rise_score) (h10 : c.sea_level_rise_score ≤ 10)
    (h11 : 0 ≤ c.wildfire_risk_score) (h12 : c.wildfire_risk_score ≤ 10)
    (h13 : 0 ≤ c.carbon_price_exposure_score) (h14 : c.carbon_price_exposure_score ≤ 10)
    (h15 : 0 ≤ c.regulatory_compliance_score) (h16 : c.regulatory_compliance_score ≤ 10)
    (h17 : 0 ≤ c.technology_disruption_score) (h18 : c.technology_disruption_score ≤ 10) :
    calculate_climate_risk_score (toRow c) ≤ 6.9 ∧
    (generate_report c).recommendation ≠ "High risk - requires detailed due diligence" := by
  have hb : calculate_climate_risk_score (toRow c) ≤ 6.9 := by
    rw [calc_score_eq]
    linarith
  refine ⟨hb, ?_⟩
  show generate_recommendation (screen_esg_exclusions c.industry).1
      (calculate_climate_risk_score (toRow c)) ≠ _
  have h8c : ¬ (8:ℚ) < calculate_climate_risk_score (toRow c) := by
    intro hc
    linarith
  cases hcompl : (screen_esg_exclusions c.industry).1
  · simp [generate_recommendation]
  · simp only [generate_recommendation, Bool.not_true, Bool.false_eq_true, if_false,
      if_neg h8c]
    split
    · decide
    · decide

/-- Witness for C10: all nine scores at their maximum value 10, where the
composite score is exactly 6.9 and the report recommends Moderate risk. -/
theorem claim_C10_high_risk_unreachable_witness :
    maxScoreCompany.flood_risk_score ≤ 10 ∧
    (calculate_climate_risk_score (toRow maxScoreCompany) ≤ 6.9 ∧
     (generate_report maxScoreCompany).recommendation
       ≠ "High risk - requires detailed due diligence") :=
  ⟨by norm_num [maxScoreCompany],
   claim_C10_high_risk_unreachable maxScoreCompany
     (by norm_num [maxScoreCompany]) (by norm_num [maxScoreCompany])
     (by norm_num [maxScoreCompany]) (by norm_num [maxScoreCompany])
     (by norm_num [maxScoreCompany]) (by norm_num [maxScoreCompany])
     (by norm_num [maxScoreCompany]) (by norm_num [maxScoreCompany])
     (by norm_num [maxScoreCompany]) (by norm_num [maxScoreCompany])
     (by norm_num [maxScoreCompany]) (by norm_num [maxScoreCompany])
     (by norm_num [maxScoreCompany]) (by norm_num [maxScoreCompany])
     (by norm_num [maxScoreCompany]) (by norm_num [maxScoreCompany])
     (by norm_num [maxScoreCompany]) (by norm_num [maxScoreCompany])⟩

end CreditRisk
